import Mathlib

/-!
Verification of the projection-engine functions of `src/app.py`
(EME Wealth Objetive).

The financial core consists of `calcular_valor_futuro`,
`calcular_cagr_necesario`, `calcular_aportacion_necesaria`, the year-by-year
series built in `main` (`serie_mercado`), and the savings-gap expression
`gap_ahorro`.  Python floats are idealised as exact rationals `ℚ`: every
operation the core performs (addition, multiplication, natural powers,
division, absolute value) is rational, so the embedding is executable.

The external library `numpy_financial` is not part of the repository; its
iterative rate solver is modelled from the spec through an outcome type
(`RateSolverOutcome`) and the annuity equation it solves (`rate_equation`),
while its closed-form payment function `npf_pmt` is modelled by the
documented formula it computes.
-/

/-- `calcular_valor_futuro` (src/app.py lines 93-108): future value of an
initial principal plus a level monthly contribution, given a horizon in years
and a nominal annual rate.  The monthly rate is `annual_rate / 12`; the
contribution component uses the annuity formula when `monthly_rate > 0` and
the linear cash accumulation `monthly_contribution * months` otherwise. -/
def calcular_valor_futuro (present_value monthly_contribution : ℚ)
    (years : ℕ) (annual_rate : ℚ) : ℚ :=
  let months : ℕ := years * 12
  let monthly_rate : ℚ := annual_rate / 12
  let fv_principal := present_value * (1 + monthly_rate) ^ months
  let fv_contributions :=
    if monthly_rate > 0 then
      monthly_contribution * (((1 + monthly_rate) ^ months - 1) / monthly_rate)
    else
      monthly_contribution * (months : ℚ)
  fv_principal + fv_contributions

/-- Outcome of the external call `npf.rate(nper, pmt, pv, fv)` in
`calcular_cagr_necesario`.  The library (not part of this repository) either
raises (`err`, caught by the `try/except`), fails to converge and returns a
floating NaN (`nan`, caught by the `np.isnan` test), or returns a monthly
rate (`ok r`). -/
inductive RateSolverOutcome where
  | err : RateSolverOutcome
  | nan : RateSolverOutcome
  | ok : ℚ → RateSolverOutcome

/-- `calcular_cagr_necesario` (src/app.py lines 110-129), parametrised by the
outcome of the external solver call
`npf.rate(nper = 12*years, pmt = -monthly_contribution, pv = -present_value,
fv = target_value)`.  An exception or a NaN result yields the sentinel
`none`; a monthly rate `r` is annualised as `(1 + r)^12 - 1`. -/
def calcular_cagr_necesario (present_value target_value : ℚ) (years : ℕ)
    (monthly_contribution : ℚ) (solver : RateSolverOutcome) : Option ℚ :=
  match present_value, target_value, years, monthly_contribution, solver with
  | _, _, _, _, .err => none
  | _, _, _, _, .nan => none
  | _, _, _, _, .ok monthly_rate => some ((1 + monthly_rate) ^ 12 - 1)

/-- Modelled from the spec: the external solver `numpy_financial.rate` (not
part of this repository) "solves for the monthly rate satisfying the annuity
equation given fixed payments and present value".  With the sign conventions
of the call site (`pmt = -monthly_contribution`, `pv = -present_value`,
`fv = target_value`, payments at period end), a monthly rate `r` solves the
equation exactly when compounding the principal and the contribution stream
at `r` over `months` months hits the target. -/
def rate_equation (present_value monthly_contribution : ℚ) (months : ℕ)
    (target_value r : ℚ) : Prop :=
  present_value * (1 + r) ^ months
    + monthly_contribution * (((1 + r) ^ months - 1) / r) = target_value

/-- Modelled from the spec: the external closed form `numpy_financial.pmt`
(not part of this repository) returns the level payment
`-(fv + pv*(1+rate)^nper) / fact` with `fact = nper` when `rate = 0` and
`fact = ((1+rate)^nper - 1) / rate` otherwise (payments at period end). -/
def npf_pmt (rate : ℚ) (nper : ℕ) (pv fv : ℚ) : ℚ :=
  if rate = 0 then -(fv + pv) / (nper : ℚ)
  else -(fv + pv * (1 + rate) ^ nper) / (((1 + rate) ^ nper - 1) / rate)

/-- `calcular_aportacion_necesaria` (src/app.py lines 131-144): monthly
payment needed to reach the target at a fixed annual rate, as the absolute
value of the external `npf.pmt(rate = annual_rate_fixed/12, nper = 12*years,
pv = -present_value, fv = target_value)`. -/
def calcular_aportacion_necesaria (present_value target_value : ℚ)
    (years : ℕ) (annual_rate_fixed : ℚ) : Option ℚ :=
  let months : ℕ := years * 12
  let monthly_rate : ℚ := annual_rate_fixed / 12
  some |npf_pmt monthly_rate months (-present_value) target_value|

/-- The savings-gap expression of src/app.py line 314:
`gap_ahorro = ahorro_necesario_mensual - aportacion_actual if
ahorro_necesario_mensual else 0`.  Python truthiness makes both `None` and a
payment of exactly `0.0` take the `else 0` branch. -/
def gap_ahorro (ahorro_necesario_mensual : Option ℚ)
    (aportacion_actual : ℚ) : ℚ :=
  match ahorro_necesario_mensual with
  | none => 0
  | some x => if x = 0 then 0 else x - aportacion_actual

/-- The year-by-year trajectory built in `main` (src/app.py lines 349-364):
for `y in range(horizonte_temporal + 1)` append
`calcular_valor_futuro(patrimonio_inicial, aportacion_actual, y, tasa)`. -/
def serie_mercado (patrimonio_inicial aportacion_actual : ℚ)
    (horizonte_temporal : ℕ) (tasa : ℚ) : List ℚ :=
  (List.range (horizonte_temporal + 1)).map
    (fun y => calcular_valor_futuro patrimonio_inicial aportacion_actual y tasa)

/-- Claim C3: `calcular_cagr_necesario` never raises: a solver exception and
a NaN solver result both yield the sentinel `none`, distinguishable from any
numeric result, and a numeric monthly rate `r` yields the annualised rate
`(1 + r)^12 - 1`. -/
theorem C3_infeasible_sentinel (pv T : ℚ) (y : ℕ) (c : ℚ) :
    calcular_cagr_necesario pv T y c .err = none ∧
    calcular_cagr_necesario pv T y c .nan = none ∧
    ∀ r : ℚ, calcular_cagr_necesario pv T y c (.ok r)
      = some ((1 + r) ^ 12 - 1) :=
  ⟨rfl, rfl, fun _ => rfl⟩

/-- Claim C4: at a zero annual rate the future value is exactly
`pv + pmt * 12 * years`: the contribution component degenerates to
`monthly_contribution * months` and the principal is unchanged. -/
theorem C4_zero_rate_linear (pv pmt : ℚ) (years : ℕ) :
    calcular_valor_futuro pv pmt years 0 = pv + pmt * 12 * (years : ℚ) := by
  simp only [calcular_valor_futuro]
  norm_num
  ring

/-- Claim C5: with a zero horizon and zero contribution the future value is
the present value, for every annual rate. -/
theorem C5_zero_horizon_identity (pv r : ℚ) :
    calcular_valor_futuro pv 0 0 r = pv := by
  simp only [calcular_valor_futuro]
  split_ifs <;> simp

/-- Claim C10: for a strictly negative annual rate the branch condition
`monthly_rate > 0` fails, so the contribution component is the linear
`monthly_contribution * months` while the principal still compounds at the
negative monthly rate `annual_rate / 12`. -/
theorem C10_negative_rate_branch (pv pmt : ℚ) (years : ℕ) (rate : ℚ)
    (hneg : rate < 0) :
    calcular_valor_futuro pv pmt years rate
      = pv * (1 + rate / 12) ^ (years * 12) + pmt * ((years * 12 : ℕ) : ℚ) := by
  have h : ¬ (rate / 12 > 0) := by
    push_neg
    exact le_of_lt (by linarith)
  simp only [calcular_valor_futuro, if_neg h]

/-- Witness for C10 at `pv = 1`, `pmt = 2`, `years = 1`, `rate = -6`. -/
theorem C10_negative_rate_branch_witness :
    calcular_valor_futuro 1 2 1 (-6)
      = 1 * (1 + (-6) / 12) ^ (1 * 12) + 2 * ((1 * 12 : ℕ) : ℚ) :=
  C10_negative_rate_branch 1 2 1 (-6) (by norm_num)

/-- Claim C6: the trajectory has exactly `horizonte + 1` points, and the
point at index `i` is the future value at year `i` computed from the four
inputs alone. -/
theorem C6_trajectory_length_indexing (pv pmt tasa : ℚ) (horizonte : ℕ)
    (hh : 1 ≤ horizonte) :
    (serie_mercado pv pmt horizonte tasa).length = horizonte + 1 ∧
    ∀ i : ℕ, i < horizonte + 1 →
      (serie_mercado pv pmt horizonte tasa)[i]?
        = some (calcular_valor_futuro pv pmt i tasa) := by
  constructor
  · simp [serie_mercado]
  · intro i hi
    simp [serie_mercado, List.getElem?_map, List.getElem?_range, hi]

/-- Witness for C6 at `pv = 0`, `pmt = 0`, `tasa = 0`, `horizonte = 1`. -/
theorem C6_trajectory_length_indexing_witness :
    (serie_mercado 0 0 1 0).length = 1 + 1 :=
  (C6_trajectory_length_indexing 0 0 0 1 (by norm_num)).1

/-- Monotonicity of the future value in the horizon, for non-negative
present value, contribution and annual rate. -/
theorem valor_futuro_mono (pv pmt tasa : ℚ) (hpv : 0 ≤ pv) (hpmt : 0 ≤ pmt)
    (htasa : 0 ≤ tasa) :
    Monotone (fun y : ℕ => calcular_valor_futuro pv pmt y tasa) := by
  intro a b hab
  simp only [calcular_valor_futuro]
  have hq : (1 : ℚ) ≤ 1 + tasa / 12 := by
    have : (0 : ℚ) ≤ tasa / 12 := by positivity
    linarith
  have hpow : (1 + tasa / 12) ^ (a * 12) ≤ (1 + tasa / 12) ^ (b * 12) :=
    pow_le_pow_right₀ hq (Nat.mul_le_mul_right 12 hab)
  have hprin : pv * (1 + tasa / 12) ^ (a * 12)
      ≤ pv * (1 + tasa / 12) ^ (b * 12) :=
    mul_le_mul_of_nonneg_left hpow hpv
  have hcon : (if tasa / 12 > 0 then
        pmt * (((1 + tasa / 12) ^ (a * 12) - 1) / (tasa / 12))
      else pmt * ((a * 12 : ℕ) : ℚ))
      ≤ (if tasa / 12 > 0 then
        pmt * (((1 + tasa / 12) ^ (b * 12) - 1) / (tasa / 12))
      else pmt * ((b * 12 : ℕ) : ℚ)) := by
    split_ifs with hmr
    · have hdiv : ((1 + tasa / 12) ^ (a * 12) - 1) / (tasa / 12)
          ≤ ((1 + tasa / 12) ^ (b * 12) - 1) / (tasa / 12) := by
        exact (div_le_div_iff_of_pos_right hmr).mpr (by linarith)
      exact mul_le_mul_of_nonneg_left hdiv hpmt
    · have : ((a * 12 : ℕ) : ℚ) ≤ ((b * 12 : ℕ) : ℚ) := by
        exact_mod_cast Nat.mul_le_mul_right 12 hab
      exact mul_le_mul_of_nonneg_left this hpmt
  exact add_le_add hprin hcon

/-- Claim C7 counterexample: with a negative present value (`pv = -1`,
`pmt = 0`, `tasa = 12`, horizon 1) the trajectory is `[-1, -4096]`, which is
not monotonically non-decreasing, so non-negative rate and contribution alone
do not make the trajectory non-decreasing. -/
theorem C7_counterexample :
    ¬ (serie_mercado (-1) 0 1 12).Sorted (· ≤ ·) := by
  have hlist : serie_mercado (-1) 0 1 12 = [-1, -4096] := by
    have h0 : calcular_valor_futuro (-1) 0 0 12 = -1 := by
      simp [calcular_valor_futuro]
    have h1 : calcular_valor_futuro (-1) 0 1 12 = -4096 := by
      simp only [calcular_valor_futuro]
      norm_num
    simp [serie_mercado, List.range_succ, h0, h1]
  rw [hlist]
  simp only [List.sorted_cons, List.mem_singleton, List.mem_cons]
  intro h
  have := h.1 (-4096) (by simp)
  norm_num at this

/-- Claim C7 (amended): for non-negative present value, non-negative monthly
contribution and non-negative annual rate, the trajectory values are
monotonically non-decreasing in the year index. -/
theorem C7_trajectory_monotone (pv pmt tasa : ℚ) (horizonte : ℕ)
    (hpv : 0 ≤ pv) (hpmt : 0 ≤ pmt) (htasa : 0 ≤ tasa) :
    (serie_mercado pv pmt horizonte tasa).Sorted (· ≤ ·) := by
  have hmono := valor_futuro_mono pv pmt tasa hpv hpmt htasa
  have hrange : (List.range (horizonte + 1)).Pairwise (· < ·) :=
    List.sorted_lt_range (horizonte + 1)
  exact hrange.map _ (fun a b hab => hmono (le_of_lt hab))

/-- Witness for the amended C7 at `pv = 1`, `pmt = 1`, `tasa = 0`,
horizon 1. -/
theorem C7_trajectory_monotone_witness :
    (serie_mercado 1 1 1 0).Sorted (· ≤ ·) :=
  C7_trajectory_monotone 1 1 0 1 (by norm_num) (by norm_num) (by norm_num)

/-- Claim C1 counterexample: with `pv = 1`, `pmt = 0`, `years = 1`,
`target = 4096` the monthly rate `r = 1` solves the annuity equation exactly
(`1 * 2^12 = 4096`), so the solve is feasible and returns the effective
annual rate `(1+1)^12 - 1 = 4095`; but feeding `4095` back into
`calcular_valor_futuro` uses the monthly rate `4095/12` and produces a value
above `100000`, missing the target `4096` far beyond any solver tolerance
(the spec mentions `~0.1` absolute or `1e-6` relative). -/
theorem C1_counterexample :
    rate_equation 1 0 12 4096 1 ∧
    calcular_cagr_necesario 1 4096 1 0 (.ok 1) = some 4095 ∧
    100000 < calcular_valor_futuro 1 0 1 4095 := by
  refine ⟨?_, ?_, ?_⟩
  · unfold rate_equation
    norm_num
  · unfold calcular_cagr_necesario
    norm_num
  · have hval : calcular_valor_futuro 1 0 1 4095 = (4107 / 12 : ℚ) ^ 12 := by
      simp only [calcular_valor_futuro]
      norm_num
    have hsq : ((4107 : ℚ) / 12) ^ 2 ≤ ((4107 : ℚ) / 12) ^ 12 :=
      pow_le_pow_right₀ (by norm_num) (by norm_num)
    have hbig : (100000 : ℚ) < ((4107 : ℚ) / 12) ^ 2 := by norm_num
    rw [hval]
    linarith

/-- Claim C1 (amended): when the external solver finds a positive monthly
root `r` of the annuity equation, `calcular_cagr_necesario` returns the
effective annual rate `(1+r)^12 - 1`, and the future value evaluated at the
nominal annual rate `12 * r` (whose monthly rate is again `r`) reproduces
the target exactly.  The round trip as stated fails because the two
functions annualise differently: `calcular_cagr_necesario` compounds
(`(1+r)^12 - 1`) while `calcular_valor_futuro` divides by 12. -/
theorem C1_roundtrip_nominal (pv pmt T r : ℚ) (years : ℕ) (hr : 0 < r)
    (heq : rate_equation pv pmt (years * 12) T r) :
    calcular_cagr_necesario pv T years pmt (.ok r) = some ((1 + r) ^ 12 - 1) ∧
    calcular_valor_futuro pv pmt years (12 * r) = T := by
  refine ⟨rfl, ?_⟩
  have h12 : (12 : ℚ) * r / 12 = r := by ring
  unfold rate_equation at heq
  simp only [calcular_valor_futuro, h12, if_pos hr]
  exact heq

/-- Witness for the amended C1 at `pv = 1`, `pmt = 0`, `target = 4096`,
`years = 1`, monthly root `r = 1`. -/
theorem C1_roundtrip_nominal_witness :
    calcular_cagr_necesario 1 4096 1 0 (.ok 1) = some ((1 + 1) ^ 12 - 1) ∧
    calcular_valor_futuro 1 0 1 (12 * 1) = 4096 :=
  C1_roundtrip_nominal 1 0 4096 1 1 (by norm_num)
    (by unfold rate_equation; norm_num)

/-- Claim C2 counterexample: with `pv = 1000`, `target = 500`, `years = 1`,
`rate = 0` the payment solve succeeds and returns `|(1000-500)/12| = 125/3`
(the absolute value flips the sign of a positive solved payment, i.e. a
withdrawal), and the round trip gives `1500`, missing the target `500` by
`1000`, far beyond tolerance. -/
theorem C2_counterexample :
    calcular_aportacion_necesaria 1000 500 1 0 = some (125 / 3) ∧
    calcular_valor_futuro 1000 (125 / 3) 1 0 = 1500 ∧
    (500 : ℚ) + 1 / 10 < calcular_valor_futuro 1000 (125 / 3) 1 0 := by
  refine ⟨?_, ?_, ?_⟩
  · simp only [calcular_aportacion_necesaria, npf_pmt]
    norm_num
  · simp only [calcular_valor_futuro]
    norm_num
  · simp only [calcular_valor_futuro]
    norm_num

/-- Claim C2 (amended): for a horizon of at least one year, a non-negative
fixed annual rate, and a target at least the compounded principal
`pv * (1 + rate/12)^(12*years)` (so the solved payment is a non-negative
contribution, unaffected by the absolute value), the payment returned by
`calcular_aportacion_necesaria` makes `calcular_valor_futuro` reproduce the
target exactly. -/
theorem C2_roundtrip_payment (pv T tasa c : ℚ) (years : ℕ)
    (hy : 1 ≤ years) (hr : 0 ≤ tasa)
    (hT : pv * (1 + tasa / 12) ^ (years * 12) ≤ T)
    (hc : calcular_aportacion_necesaria pv T years tasa = some c) :
    calcular_valor_futuro pv c years tasa = T := by
  simp only [calcular_aportacion_necesaria, Option.some.injEq] at hc
  rcases hr.lt_or_eq with hpos | h0
  · have hmr : 0 < tasa / 12 := by positivity
    have hq : (1 : ℚ) < 1 + tasa / 12 := by linarith
    have hn : years * 12 ≠ 0 := by omega
    have hqn : 1 < (1 + tasa / 12) ^ (years * 12) := one_lt_pow₀ hq hn
    have hfact : 0 < ((1 + tasa / 12) ^ (years * 12) - 1) / (tasa / 12) :=
      div_pos (by linarith) hmr
    have hpmtval : npf_pmt (tasa / 12) (years * 12) (-pv) T
        = -(T + (-pv) * (1 + tasa / 12) ^ (years * 12))
          / (((1 + tasa / 12) ^ (years * 12) - 1) / (tasa / 12)) := by
      rw [npf_pmt, if_neg (ne_of_gt hmr)]
    have hnonpos : npf_pmt (tasa / 12) (years * 12) (-pv) T ≤ 0 := by
      rw [hpmtval]
      exact div_nonpos_iff.mpr (Or.inr ⟨by linarith, le_of_lt hfact⟩)
    have hcval : c = (T - pv * (1 + tasa / 12) ^ (years * 12))
        / (((1 + tasa / 12) ^ (years * 12) - 1) / (tasa / 12)) := by
      rw [← hc, abs_of_nonpos hnonpos, hpmtval]
      ring
    simp only [calcular_valor_futuro, if_pos hmr]
    rw [hcval, div_mul_cancel₀ _ (ne_of_gt hfact)]
    ring
  · have h0' : tasa = 0 := h0.symm
    subst h0'
    have hn : ((years * 12 : ℕ) : ℚ) ≠ 0 := by
      have h12 : years * 12 ≠ 0 := by omega
      exact_mod_cast h12
    have hnpos : (0 : ℚ) < ((years * 12 : ℕ) : ℚ) := by
      have h12 : 0 < years * 12 := by omega
      exact_mod_cast h12
    have hple : pv ≤ T := by
      have hone : ((1 : ℚ) + 0 / 12) ^ (years * 12) = 1 := by norm_num
      rw [hone, mul_one] at hT
      exact hT
    have hpmtval : npf_pmt (0 / 12) (years * 12) (-pv) T
        = -(T + (-pv)) / ((years * 12 : ℕ) : ℚ) := by
      rw [npf_pmt, if_pos (by norm_num)]
    have hnonpos : npf_pmt (0 / 12) (years * 12) (-pv) T ≤ 0 := by
      rw [hpmtval]
      exact div_nonpos_iff.mpr (Or.inr ⟨by linarith, le_of_lt hnpos⟩)
    have hcval : c = (T - pv) / ((years * 12 : ℕ) : ℚ) := by
      rw [← hc, abs_of_nonpos hnonpos, hpmtval]
      ring
    have hnotpos : ¬ ((0 : ℚ) / 12 > 0) := by norm_num
    simp only [calcular_valor_futuro, if_neg hnotpos]
    rw [hcval, div_mul_cancel₀ _ hn]
    norm_num

/-- Witness for the amended C2 at `pv = 0`, `target = 1200`, `years = 1`,
`rate = 0`: the solved payment is `100` per month and the round trip yields
`1200`. -/
theorem C2_roundtrip_payment_witness :
    calcular_valor_futuro 0 100 1 0 = 1200 :=
  C2_roundtrip_payment 0 1200 0 100 1 (by norm_num) (by norm_num)
    (by norm_num)
    (by simp only [calcular_aportacion_necesaria, npf_pmt]; norm_num)

/-- Claim C8 counterexample: with `pv = 1000`, `target = 1000`, `years = 1`,
`rate = 0` the payment solve succeeds and returns the numeric amount `0`;
with a current contribution of `700` the reported gap is `0` (Python
truthiness sends the falsy `0.0` to the `else 0` branch of line 314), not
the arithmetic difference `0 - 700`. -/
theorem C8_counterexample :
    calcular_aportacion_necesaria 1000 1000 1 0 = some 0 ∧
    gap_ahorro (calcular_aportacion_necesaria 1000 1000 1 0) 700 = 0 ∧
    gap_ahorro (calcular_aportacion_necesaria 1000 1000 1 0) 700 ≠ 0 - 700 := by
  have hreq : calcular_aportacion_necesaria 1000 1000 1 0 = some 0 := by
    simp only [calcular_aportacion_necesaria, npf_pmt]
    norm_num
  refine ⟨hreq, ?_, ?_⟩
  · rw [hreq]
    simp [gap_ahorro]
  · rw [hreq]
    simp [gap_ahorro]

/-- Claim C8 (amended): whenever the payment solve returns a numeric and
nonzero monthly amount, the reported gap equals exactly the arithmetic
difference between that amount and the current monthly contribution. -/
theorem C8_gap_exact (req : Option ℚ) (cur x : ℚ) (hx : req = some x)
    (hne : x ≠ 0) : gap_ahorro req cur = x - cur := by
  subst hx
  simp [gap_ahorro, hne]

/-- Witness for the amended C8: with `pv = 0`, `target = 1200`, `years = 1`,
`rate = 0` the required payment is `100` and the gap against a current
contribution of `1000` is `100 - 1000`. -/
theorem C8_gap_exact_witness :
    gap_ahorro (calcular_aportacion_necesaria 0 1200 1 0) 1000 = 100 - 1000 :=
  C8_gap_exact (calcular_aportacion_necesaria 0 1200 1 0) 1000 100
    (by simp only [calcular_aportacion_necesaria, npf_pmt]; norm_num)
    (by norm_num)

/-- Claim C9: whenever the payment solve succeeds,
`calcular_aportacion_necesaria` returns the absolute value of the level
monthly payment computed by the underlying formula, hence a non-negative
number. -/
theorem C9_payment_abs_nonneg (pv T tasa x : ℚ) (years : ℕ)
    (hx : calcular_aportacion_necesaria pv T years tasa = some x) :
    x = |npf_pmt (tasa / 12) (years * 12) (-pv) T| ∧ 0 ≤ x := by
  simp only [calcular_aportacion_necesaria, Option.some.injEq] at hx
  exact ⟨hx.symm, hx ▸ abs_nonneg _⟩

/-- Witness for C9 at `pv = 1000`, `target = 500`, `years = 1`, `rate = 0`:
the returned payment `125/3` is the absolute value of the solved payment and
is non-negative. -/
theorem C9_payment_abs_nonneg_witness :
    (125 / 3 : ℚ) = |npf_pmt (0 / 12) (1 * 12) (-1000) 500| ∧
    (0 : ℚ) ≤ 125 / 3 :=
  C9_payment_abs_nonneg 1000 500 0 (125 / 3) 1
    (by simp only [calcular_aportacion_necesaria, npf_pmt]; norm_num)
